import Mathlib

/- Shallow embedding of the graphics-settings sample of PredatorMF/Urho3D
   (Source/Samples/54_GraphicsMode/GraphicsSettings.cpp and .h).

   Conventions of the embedding:
   - C++ `int` fields are modelled as `Int` (the program never relies on
     wrap-around of these values).
   - Urho3D `String` is modelled as `List Char`.
   - SDL display enumeration is modelled by an explicit environment value
     listing, per monitor, its name and its reported display modes.
   - The GUI widgets and the Graphics/Renderer subsystems are modelled as
     plain records of the state they store; the event handlers become
     state-transformer functions. -/

namespace Urho3D

/-- Urho3D strings, modelled as lists of characters. -/
abbrev Str := List Char

/-- Characters treated as whitespace by strtol (C isspace). -/
def isSpaceChar (c : Char) : Bool :=
  c = ' ' || c = '\t' || c = '\n' || c = '\x0b' || c = '\x0c' || c = '\r'

/-- The decimal digit character for a value below ten. -/
def digitChar (n : Nat) : Char := Char.ofNat (48 + n)

/-- The numeric value of a decimal digit character. -/
def digitVal (c : Char) : Nat := c.toNat - 48

/-- Value of a string of decimal digits, most significant first. -/
def digitsToNat (ds : Str) : Nat := ds.foldl (fun acc c => acc * 10 + digitVal c) 0

/-- Decimal digit string of a natural number (no sign, no leading zeros,
a lone zero for 0), as produced by printf %d for non-negative values. -/
def natToDigits (n : Nat) : Str :=
  if n < 10 then [digitChar n]
  else natToDigits (n / 10) ++ [digitChar (n % 10)]
termination_by n
decreasing_by simp_wf; omega

/-- printf %d output for an `int` value. -/
def intToDecimal (n : Int) : Str :=
  if n < 0 then '-' :: natToDigits n.natAbs else natToDigits n.natAbs

/-- Signed digit-run evaluation used by the strtol model: an empty digit run
parses to 0, otherwise the digits are evaluated and the sign applied. -/
def toIntSigned (sign : Int) (ds : Str) : Int :=
  if ds.isEmpty then 0 else sign * (digitsToNat ds : Int)

/-- The input with leading whitespace removed (first step of strtol). -/
def afterSpace (s : Str) : Str := s.dropWhile isSpaceChar

/-- The input with leading whitespace and an optional single sign character
removed (second step of strtol). -/
def afterSign (s : Str) : Str :=
  if (afterSpace s).head? = some '-' || (afterSpace s).head? = some '+' then
    (afterSpace s).drop 1
  else afterSpace s

/-- Modelled from the spec: Urho3D::ToInt (Core/StringUtils) is library code
outside the two repository source files; the spec records only that parsing
defaults to zero on failure ("malformed resolution string parses to 0x0").
It is modelled as a strtol-style decimal parser: skip leading whitespace, an
optional sign, then a run of decimal digits, ignoring any trailing text; if
no digit follows the result is 0. -/
def toInt (s : Str) : Int :=
  if (afterSpace s).head? = some '-' then
    toIntSigned (-1) ((afterSign s).takeWhile Char.isDigit)
  else toIntSigned 1 ((afterSign s).takeWhile Char.isDigit)

/-- A string is a malformed number when, after leading whitespace and an
optional sign, it does not continue with a decimal digit. -/
def malformedNumber (s : Str) : Bool :=
  match (afterSign s).head? with
  | none => true
  | some c => !c.isDigit

/-- Accumulator-style splitter behind `split`: cuts the string at every
occurrence of the separator, keeping empty pieces. -/
def splitKeep (sep : Char) : Str → Str → List Str
  | [], acc => [acc.reverse]
  | c :: rest, acc =>
      if c = sep then acc.reverse :: splitKeep sep rest []
      else splitKeep sep rest (c :: acc)

/-- Modelled from the spec: Urho3D String::Split (with its default of
dropping empty substrings) is library code outside the two repository source
files; the spec only fixes the "WxH" / "WxH@RHz" encodings it is used to cut
apart. Modelled as: the non-empty substrings between occurrences of the
separator. -/
def split (sep : Char) (s : Str) : List Str :=
  (splitKeep sep s []).filter (fun t => !t.isEmpty)

/-- The resolution record of GraphicsSettings.cpp: width, height and refresh
rate, default-constructed as all zero. -/
structure Resolution where
  width : Int
  height : Int
  refreshrate : Int
deriving DecidableEq, Repr

/-- Resolution::operator> — comparison by pixel area only. -/
def Resolution.gt (a rhs : Resolution) : Bool :=
  decide (a.width * a.height > rhs.width * rhs.height)

/-- Resolution::operator< — comparison by pixel area only. -/
def Resolution.lt (a rhs : Resolution) : Bool :=
  decide (a.width * a.height < rhs.width * rhs.height)

/-- Resolution::FromString: split on the character x; with more than two
tokens take the three fields directly, with exactly two split the second
token at the @ sign to recover an optional refresh rate, and otherwise
return the all-zero resolution. -/
def Resolution.fromString (s : Str) : Resolution :=
  let tokens := split 'x' s
  if 2 < tokens.length then
    ⟨toInt (tokens.getD 0 []), toInt (tokens.getD 1 []), toInt (tokens.getD 2 [])⟩
  else if tokens.length = 2 then
    let rate_tokens := split '@' (tokens.getD 1 [])
    if 1 < rate_tokens.length then
      ⟨toInt (tokens.getD 0 []), toInt (rate_tokens.getD 0 []), toInt (rate_tokens.getD 1 [])⟩
    else
      ⟨toInt (tokens.getD 0 []), toInt (tokens.getD 1 []), 0⟩
  else
    ⟨0, 0, 0⟩

/-- Resolution::ToString: "WxH" without the rate, "WxH@RHz" with it. -/
def Resolution.toString (r : Resolution) (with_rate : Bool) : Str :=
  if ¬ with_rate then
    intToDecimal r.width ++ 'x' :: intToDecimal r.height
  else
    intToDecimal r.width ++ 'x' :: intToDecimal r.height
      ++ '@' :: intToDecimal r.refreshrate ++ ['H', 'z']

/-- Pixel-area ordering used to sort resolutions descending: the comparator
greater() of the source applied to Resolution::operator>, made non-strict so
it is total (ties may appear in either order, which the claims never fix). -/
def Resolution.areaGe (a b : Resolution) : Prop :=
  b.width * b.height ≤ a.width * a.height

/-- Ascending companion of `Resolution.areaGe`. -/
def Resolution.areaLe (a b : Resolution) : Prop :=
  a.width * a.height ≤ b.width * b.height

instance : DecidableRel Resolution.areaGe := fun a b =>
  inferInstanceAs (Decidable (b.width * b.height ≤ a.width * a.height))

instance : DecidableRel Resolution.areaLe := fun a b =>
  inferInstanceAs (Decidable (a.width * a.height ≤ b.width * b.height))

instance : IsTotal Resolution Resolution.areaGe :=
  ⟨fun a b => le_total (b.width * b.height) (a.width * a.height)⟩

instance : IsTrans Resolution Resolution.areaGe := ⟨fun _ _ _ h1 h2 => le_trans h2 h1⟩

/-- One SDL display mode as reported by SDL_GetDisplayMode. -/
structure DisplayMode where
  w : Int
  h : Int
  refresh_rate : Int
deriving DecidableEq, Repr

/-- One monitor of the SDL environment: its display name and the display
modes SDL reports for it, in enumeration order. -/
structure MonitorInfo where
  name : Str
  modes : List DisplayMode
deriving DecidableEq, Repr

/-- The SDL display environment: the currently present monitors. -/
abbrev SDLEnv := List MonitorInfo

/-- SDL_GetNumVideoDisplays. -/
def getMonitorCount (env : SDLEnv) : Nat := env.length

/-- The display modes SDL reports for a monitor index; out-of-range indices
report none (SDL_GetNumDisplayModes errors and the enumeration loop never
runs). -/
def displayModesOf (env : SDLEnv) (monitor : Int) : List DisplayMode :=
  (env.getD monitor.toNat ⟨[], []⟩).modes

/-- GetFullscreenResolutions: negative monitor yields the empty list;
otherwise the reported modes passing the rate filter (the condition is
transcribed from the source), sorted in descending pixel-area order.
Urho3D::Sort with the greater() comparator is modelled as insertion sort on
`Resolution.areaGe`, which produces the same multiset in non-increasing
area order. -/
def getFullscreenResolutions (env : SDLEnv) (monitor rate : Int) : List Resolution :=
  if monitor < 0 then []
  else
    List.insertionSort Resolution.areaGe
      (((displayModesOf env monitor).filter
          (fun mode => decide (rate = -1 ∨ (¬rate = -1 ∧ mode.refresh_rate = rate)))).map
        (fun mode => Resolution.mk mode.w mode.h mode.refresh_rate))

/-- GetFullscreenRefreshRates: negative monitor yields the empty list;
otherwise each refresh rate of the full mode list is appended the first time
it is seen (the Find/Push loop of the source). -/
def getFullscreenRefreshRates (env : SDLEnv) (monitor : Int) : List Int :=
  if monitor < 0 then []
  else
    (getFullscreenResolutions env monitor (-1)).foldl
      (fun rates mode =>
        if mode.refreshrate ∈ rates then rates else rates ++ [mode.refreshrate])
      []

/-- Swap of two positions of a list, as done by Urho3D::Swap on iterators
(`d` is only read for out-of-range positions, which the loops never use). -/
def swapElems (l : List α) (i j : Nat) (d : α) : List α :=
  (l.set i (l.getD j d)).set j (l.getD i d)

/-- The in-place reversal loop of FillRates, FillResolutions and
RefreshVideoOptions: for every i below size/2, swap element i with element
size-1-i. -/
def reverseLoop (d : α) (l : List α) (i : Nat) : List α :=
  if i < l.length / 2 then
    reverseLoop d (swapElems l i (l.length - 1 - i) d) (i + 1)
  else l
termination_by l.length / 2 - i
decreasing_by simp_wf; simp only [swapElems, List.length_set]; omega

/-- Modelled from the spec: UIMultiOption (ui_option.h, not among the two
repository source files) is a widget storing a list of option strings and
the selected index; GetValue returns the string at the selected index. -/
structure UIMultiOptionState where
  strings : List Str
  index : Int
deriving DecidableEq, Repr

/-- UIMultiOption::GetValue — the string at the selected index. -/
def UIMultiOptionState.value (w : UIMultiOptionState) : Str :=
  w.strings.getD w.index.toNat []

/-- The graphics subsystem state the sample reads and writes. -/
structure GraphicsState where
  width : Int
  height : Int
  posX : Int
  posY : Int
  fullscreen : Bool
  borderless : Bool
  vsync : Bool
  resizable : Bool
  sdlResizable : Bool
  monitor : Int
  refreshrate : Int
deriving DecidableEq, Repr

/-- The renderer quality state touched by the graphics tab. -/
structure RendererState where
  textureQuality : Int
  materialQuality : Int
  drawShadows : Bool
  shadowMapSize : Int
  shadowQuality : Int
  maxOccluderTriangles : Int
  dynamicInstancing : Bool
  specularLighting : Bool
  hdrRendering : Bool
deriving DecidableEq, Repr

/-- Arguments of the single Graphics::SetMode call of ApplyVideoOptions, in
the order of the Urho3D signature. -/
structure SetModeArgs where
  width : Int
  height : Int
  fullscreen : Bool
  borderless : Bool
  resizable : Bool
  highDPI : Bool
  vsync : Bool
  tripleBuffer : Bool
  multiSample : Int
  monitor : Int
  refreshRate : Int
deriving DecidableEq, Repr

/-- The mutable state of the GraphicsSettings sample: the engine subsystems,
the widgets of the video and graphics tabs, the Apply button, and the flags
and saved windowed geometry of GraphicsSettings.h. -/
structure SettingsState where
  graphics : GraphicsState
  renderer : RendererState
  optFullscreen : UIMultiOptionState
  optMonitor : UIMultiOptionState
  optResolution : UIMultiOptionState
  optRate : UIMultiOptionState
  optVsync : Bool
  optResizable : Bool
  optFpslimit : UIMultiOptionState
  optTextureQuality : UIMultiOptionState
  optMaterialQuality : UIMultiOptionState
  optShadows : UIMultiOptionState
  optShadowQuality : UIMultiOptionState
  optOcclusion : UIMultiOptionState
  optInstancing : UIMultiOptionState
  optSpecular : UIMultiOptionState
  optHdr : UIMultiOptionState
  btnApplyEnabled : Bool
  btnApplyFocusable : Bool
  refreshing : Bool
  needsApply : Bool
  windowedResolution : Int × Int
  windowedPosition : Int × Int
  engineMaxFps : Int
deriving DecidableEq, Repr

/-- An option-changed event: the name and tags of the option that changed. -/
structure OptionEvent where
  name : Str
  tags : List Str
deriving DecidableEq, Repr

def optMonitorName : Str := ("OptMonitor").toList

def optRateName : Str := ("OptRate").toList

def videoTag : Str := ("video").toList

def miscVideoTag : Str := ("misc-video").toList

def graphicsTag : Str := ("graphics").toList

/-- UIElement::HasTag of the changed option. -/
def hasTag (ev : OptionEvent) (t : Str) : Bool := decide (t ∈ ev.tags)

/-- GraphicsSettings::FillRates: reverse the refresh-rate list in place,
render each rate with printf %d, store the strings in the rate widget and
select the last entry (Size()-1 on the unsigned size reaching the int
parameter as -1 for an empty list, written here directly over Int). -/
def fillRates (env : SDLEnv) (monitor : Int) (s : SettingsState) : SettingsState :=
  let rates := reverseLoop 0 (getFullscreenRefreshRates env monitor) 0
  let res := rates.map intToDecimal
  { s with optRate := ⟨res, (res.length : Int) - 1⟩ }

/-- GraphicsSettings::FillResolutions: reverse the descending resolution
list in place, render each as "WxH", store the strings in the resolution
widget and select the last entry. -/
def fillResolutions (env : SDLEnv) (monitor rate : Int) (s : SettingsState) : SettingsState :=
  let resolutions := reverseLoop (⟨0, 0, 0⟩ : Resolution) (getFullscreenResolutions env monitor rate) 0
  let res := resolutions.map (fun r => r.toString false)
  { s with optResolution := ⟨res, (res.length : Int) - 1⟩ }

/-- The linear search of RefreshVideoOptions for the current fullscreen
resolution in the reversed resolution list: index of the first entry whose
width, height and refresh rate all match, -1 when none does. -/
def findResIndexAux (w h rr : Int) : List Resolution → Int → Int
  | [], _ => -1
  | r :: rest, i =>
      if r.width = w ∧ r.height = h ∧ r.refreshrate = rr then i
      else findResIndexAux w h rr rest (i + 1)

def findResIndex (l : List Resolution) (w h rr : Int) : Int :=
  findResIndexAux w h rr l 0

/-- GraphicsSettings::RefreshVideoOptions, step by step from the source.
The RenderWindowMode value the source computes from the fullscreen and
borderless flags is never used there; the display-mode widget is set to
RWM_WINDOWED (0) unconditionally, which this embedding transcribes. -/
def refreshVideoOptions (env : SDLEnv) (s0 : SettingsState) : SettingsState :=
  let s1 := { s0 with refreshing := true }
  let s2 :=
    if ¬s1.graphics.fullscreen ∧ ¬s1.graphics.borderless then
      { s1 with
        windowedResolution := (s1.graphics.width, s1.graphics.height),
        windowedPosition := (s1.graphics.posX, s1.graphics.posY) }
    else s1
  let s3 := { s2 with btnApplyFocusable := s2.needsApply, btnApplyEnabled := s2.needsApply }
  let monitor := s3.graphics.monitor
  let s4 := { s3 with optMonitor := ⟨env.map MonitorInfo.name, monitor⟩ }
  let s5 := fillRates env monitor s4
  let rate := toInt s5.optRate.value
  let s6 := fillResolutions env monitor rate s5
  let s7 := { s6 with optFullscreen := { s6.optFullscreen with index := 0 } }
  let res_index : Int :=
    if s7.graphics.fullscreen then
      findResIndex
        (reverseLoop (⟨0, 0, 0⟩ : Resolution)
          (getFullscreenResolutions env s7.optMonitor.index (toInt s7.optRate.value)) 0)
        s7.graphics.width s7.graphics.height s7.graphics.refreshrate
    else -1
  let s8 :=
    if res_index ≠ -1 then
      { s7 with optResolution := { s7.optResolution with index := res_index } }
    else s7
  let s9 := { s8 with optVsync := s8.graphics.vsync, optResizable := s8.graphics.resizable }
  { s9 with refreshing := false }

/-- The Resolution value ApplyVideoOptions builds from the display-mode
index: the source writes `if (fullscreen == 0) {...} if (fullscreen == 1)
{...} else if (fullscreen == 2) {...}`, so the windowed assignment of the
first if survives only when the second chain takes neither branch. -/
def videoModeResolution (s : SettingsState) : Resolution :=
  let fullscreen := s.optFullscreen.index
  let res1 : Resolution :=
    if fullscreen = 0 then ⟨s.windowedResolution.1, s.windowedResolution.2, 0⟩
    else ⟨0, 0, 0⟩
  if fullscreen = 1 then ⟨0, 0, 0⟩
  else if fullscreen = 2 then
    { Resolution.fromString s.optResolution.value with refreshrate := toInt s.optRate.value }
  else res1

/-- The arguments ApplyVideoOptions passes to Graphics::SetMode. -/
def setModeArgs (s : SettingsState) : SetModeArgs :=
  { width := (videoModeResolution s).width
    height := (videoModeResolution s).height
    fullscreen := decide (s.optFullscreen.index = 2)
    borderless := decide (s.optFullscreen.index = 1)
    resizable := true
    highDPI := false
    vsync := s.optVsync
    tripleBuffer := false
    multiSample := 0
    monitor := s.optMonitor.index
    refreshRate := (videoModeResolution s).refreshrate }

/-- Effect of Graphics::SetMode on the modelled graphics state. -/
def applySetMode (g : GraphicsState) (a : SetModeArgs) : GraphicsState :=
  { g with
    width := a.width
    height := a.height
    fullscreen := a.fullscreen
    borderless := a.borderless
    resizable := a.resizable
    vsync := a.vsync
    monitor := a.monitor
    refreshrate := a.refreshRate }

/-- GraphicsSettings::ApplyVideoOptions: one SetMode call, then the window
position is restored when the display mode is Window (index 0). -/
def applyVideoOptions (s : SettingsState) : SettingsState :=
  let g1 := applySetMode s.graphics (setModeArgs s)
  let g2 :=
    if s.optFullscreen.index = 0 then
      { g1 with posX := s.windowedPosition.1, posY := s.windowedPosition.2 }
    else g1
  { s with graphics := g2 }

/-- GraphicsSettings::HandleApply: apply the video options, then clear
needs_apply_ (the button state is not touched here). -/
def handleApply (s : SettingsState) : SettingsState :=
  let s1 := applyVideoOptions s
  { s1 with needsApply := false }

/-- GraphicsSettings::RefreshGraphicsOptions. -/
def refreshGraphicsOptions (s0 : SettingsState) : SettingsState :=
  let s1 := { s0 with refreshing := true }
  let s2 :=
    { s1 with
      optTextureQuality := { s1.optTextureQuality with index := s1.renderer.textureQuality }
      optMaterialQuality := { s1.optMaterialQuality with index := s1.renderer.materialQuality }
      optShadows :=
        { s1.optShadows with
          index := if s1.renderer.drawShadows then s1.renderer.shadowMapSize / 512 else 0 }
      optShadowQuality := { s1.optShadowQuality with index := s1.renderer.shadowQuality }
      optOcclusion :=
        { s1.optOcclusion with
          index := if s1.renderer.maxOccluderTriangles > 0 then 1 else 0 }
      optInstancing :=
        { s1.optInstancing with index := if s1.renderer.dynamicInstancing then 1 else 0 }
      optSpecular :=
        { s1.optSpecular with index := if s1.renderer.specularLighting then 1 else 0 }
      optHdr := { s1.optHdr with index := if s1.renderer.hdrRendering then 1 else 0 } }
  { s2 with refreshing := false }

/-- GraphicsSettings::ApplyGraphicsOptions: a no-op while refreshing_,
otherwise the renderer state is rebuilt from the graphics-tab widgets. -/
def applyGraphicsOptions (s : SettingsState) : SettingsState :=
  if s.refreshing then s
  else
    { s with
      renderer :=
        { textureQuality := s.optTextureQuality.index
          materialQuality := s.optMaterialQuality.index
          drawShadows := decide (s.optShadows.index ≠ 0)
          shadowMapSize := s.optShadows.index * 512
          shadowQuality := s.optShadowQuality.index
          maxOccluderTriangles := if s.optOcclusion.index > 0 then 5000 else 0
          dynamicInstancing := decide (s.optInstancing.index > 0)
          specularLighting := decide (s.optSpecular.index > 0)
          hdrRendering := decide (s.optHdr.index > 0) } }

/-- GraphicsSettings::HandleOptionChanged: a no-op while refreshing_;
otherwise monitor and rate changes refill the dependent widgets, a video
tag marks needs_apply_ and syncs the Apply button, a misc-video tag applies
the resizable flag and FPS limit directly, and a graphics tag applies the
renderer options. -/
def handleOptionChanged (env : SDLEnv) (ev : OptionEvent) (s : SettingsState) : SettingsState :=
  if s.refreshing then s
  else
    let s1 :=
      if ev.name = optMonitorName then
        let monitor := s.optMonitor.index
        let sA := fillRates env monitor s
        let rate := toInt sA.optRate.value
        fillResolutions env monitor rate sA
      else if ev.name = optRateName then
        let rate := toInt s.optRate.value
        let monitor := s.optMonitor.index
        fillResolutions env monitor rate s
      else s
    let needs := s1.needsApply || hasTag ev videoTag
    let s2 := { s1 with needsApply := needs, btnApplyFocusable := needs, btnApplyEnabled := needs }
    let s3 :=
      if hasTag ev miscVideoTag then
        { s2 with
          graphics := { s2.graphics with sdlResizable := s2.optResizable }
          engineMaxFps := if s2.optFpslimit.index > 0 then toInt s2.optFpslimit.value else 0 }
      else s2
    if hasTag ev graphicsTag then applyGraphicsOptions s3 else s3

/- Concrete sample data used to instantiate the theorems below. -/

/-- A one-monitor SDL environment with four display modes. -/
def envW : SDLEnv :=
  [⟨[], [⟨640, 480, 60⟩, ⟨800, 600, 75⟩, ⟨1024, 768, 60⟩, ⟨320, 200, 60⟩]⟩]

/-- A sample graphics state: a plain window on monitor 0. -/
def baseGraphics : GraphicsState :=
  { width := 800, height := 600, posX := 10, posY := 20, fullscreen := false,
    borderless := false, vsync := false, resizable := true, sdlResizable := true,
    monitor := 0, refreshrate := 60 }

/-- A sample renderer state. -/
def baseRenderer : RendererState :=
  { textureQuality := 2, materialQuality := 2, drawShadows := true, shadowMapSize := 1024,
    shadowQuality := 3, maxOccluderTriangles := 5000, dynamicInstancing := true,
    specularLighting := true, hdrRendering := false }

/-- A sample settings state with empty widgets and cleared flags. -/
def baseState : SettingsState :=
  { graphics := baseGraphics, renderer := baseRenderer,
    optFullscreen := ⟨[], 0⟩, optMonitor := ⟨[], 0⟩,
    optResolution := ⟨[], 0⟩, optRate := ⟨[], 0⟩,
    optVsync := false, optResizable := true, optFpslimit := ⟨[], 0⟩,
    optTextureQuality := ⟨[], 0⟩, optMaterialQuality := ⟨[], 0⟩,
    optShadows := ⟨[], 0⟩, optShadowQuality := ⟨[], 0⟩,
    optOcclusion := ⟨[], 0⟩, optInstancing := ⟨[], 0⟩,
    optSpecular := ⟨[], 0⟩, optHdr := ⟨[], 0⟩,
    btnApplyEnabled := false, btnApplyFocusable := false,
    refreshing := false, needsApply := false,
    windowedResolution := (800, 600), windowedPosition := (10, 20),
    engineMaxFps := 0 }

/-- A sample option-changed event carrying the video tag. -/
def videoEvent : OptionEvent := ⟨("OptVsync").toList, [videoTag]⟩

/- Helper lemmas about the character and digit machinery. -/

theorem digitVal_digitChar (n : Nat) (h : n < 10) : digitVal (digitChar n) = n := by
  interval_cases n <;> decide

theorem isDigit_digitChar (n : Nat) (h : n < 10) : (digitChar n).isDigit = true := by
  interval_cases n <;> decide

theorem digit_ne_of (c d : Char) (h : c.isDigit = true) (hd : d.isDigit = false) : c ≠ d := by
  intro e; subst e; rw [h] at hd; exact Bool.noConfusion hd

theorem isSpaceChar_eq_false_of_digit (c : Char) (h : c.isDigit = true) :
    isSpaceChar c = false := by
  cases hsc : isSpaceChar c
  · rfl
  · exfalso
    unfold isSpaceChar at hsc
    simp only [Bool.or_eq_true, decide_eq_true_eq] at hsc
    rcases hsc with ((((e | e) | e) | e) | e) | e <;>
      (subst e; exact absurd h (by decide))

theorem digitsToNat_append_single (ds : Str) (c : Char) :
    digitsToNat (ds ++ [c]) = digitsToNat ds * 10 + digitVal c := by
  simp [digitsToNat, List.foldl_append]

theorem natToDigits_ne_nil (n : Nat) : natToDigits n ≠ [] := by
  rw [natToDigits]
  split
  · simp
  · simp

theorem mem_natToDigits (n : Nat) : ∀ c ∈ natToDigits n, c.isDigit = true := by
  induction n using Nat.strong_induction_on with
  | _ n ih =>
    rw [natToDigits]
    split
    · next h => intro c hc; simp only [List.mem_singleton] at hc; subst hc
                exact isDigit_digitChar n h
    · next h =>
        intro c hc
        simp only [List.mem_append, List.mem_singleton] at hc
        rcases hc with hc | hc
        · exact ih (n / 10) (by omega) c hc
        · subst hc; exact isDigit_digitChar _ (Nat.mod_lt _ (by omega))

theorem digitsToNat_natToDigits (n : Nat) : digitsToNat (natToDigits n) = n := by
  induction n using Nat.strong_induction_on with
  | _ n ih =>
    rw [natToDigits]
    split
    · next h => simp [digitsToNat, digitVal_digitChar n h]
    · next h =>
        rw [digitsToNat_append_single, ih (n / 10) (by omega),
          digitVal_digitChar _ (Nat.mod_lt _ (by omega))]
        omega

theorem mem_intToDecimal (n : Int) (c : Char) (hc : c ∈ intToDecimal n) :
    c = '-' ∨ c.isDigit = true := by
  unfold intToDecimal at hc
  split at hc
  · rcases List.mem_cons.mp hc with h | h
    · exact Or.inl h
    · exact Or.inr (mem_natToDigits _ c h)
  · exact Or.inr (mem_natToDigits _ c hc)

/- takeWhile facts used by the strtol model. -/

theorem takeWhile_digits_of_suffix (ds suffix : Str)
    (hds : ∀ c ∈ ds, c.isDigit = true)
    (hs : ∀ c, suffix.head? = some c → c.isDigit = false) :
    (ds ++ suffix).takeWhile Char.isDigit = ds := by
  induction ds with
  | nil =>
      cases suffix with
      | nil => rfl
      | cons c B => simp [List.takeWhile_cons, hs c rfl]
  | cons x xs ih =>
      rw [List.cons_append, List.takeWhile_cons, hds x (List.mem_cons_self x xs)]
      rw [if_pos rfl, ih fun d hd => hds d (List.mem_cons_of_mem x hd)]

/- The round trip between intToDecimal and the strtol model, with arbitrary
non-digit-headed trailing text (as in the Hz suffix of "WxH@RHz"). -/

theorem toInt_decimal_append (n : Int) (suffix : Str)
    (hs : ∀ c, suffix.head? = some c → c.isDigit = false) :
    toInt (intToDecimal n ++ suffix) = n := by
  have hne := natToDigits_ne_nil n.natAbs
  obtain ⟨c, cs, hcs⟩ := List.exists_cons_of_ne_nil hne
  have hdigits := mem_natToDigits n.natAbs
  have hcdig : c.isDigit = true := hdigits c (by rw [hcs]; exact List.mem_cons_self c cs)
  have hds : (natToDigits n.natAbs ++ suffix).takeWhile Char.isDigit = natToDigits n.natAbs :=
    takeWhile_digits_of_suffix _ _ hdigits hs
  have hsigned : ∀ sign : Int, toIntSigned sign (natToDigits n.natAbs) = sign * (n.natAbs : Int) := by
    intro sign
    unfold toIntSigned
    rw [if_neg (by rw [List.isEmpty_iff]; exact hne), digitsToNat_natToDigits]
  by_cases hn : n < 0
  · have hdec : intToDecimal n = '-' :: natToDigits n.natAbs := by
      unfold intToDecimal; rw [if_pos hn]
    have hspace : afterSpace (intToDecimal n ++ suffix)
        = '-' :: (natToDigits n.natAbs ++ suffix) := by
      rw [hdec, List.cons_append]
      unfold afterSpace
      rw [List.dropWhile_cons, if_neg (by decide)]
    have hsign : afterSign (intToDecimal n ++ suffix) = natToDigits n.natAbs ++ suffix := by
      unfold afterSign
      rw [hspace]
      simp
    unfold toInt
    rw [hspace, hsign, hds, List.head?_cons, if_pos rfl, hsigned]
    omega
  · have hdec : intToDecimal n = natToDigits n.natAbs := by
      unfold intToDecimal; rw [if_neg hn]
    have hspace : afterSpace (intToDecimal n ++ suffix) = natToDigits n.natAbs ++ suffix := by
      rw [hdec, hcs, List.cons_append]
      unfold afterSpace
      rw [List.dropWhile_cons, if_neg (by rw [isSpaceChar_eq_false_of_digit c hcdig]; exact
        Bool.noConfusion), ← List.cons_append, ← hcs]
    have hhead : (natToDigits n.natAbs ++ suffix).head? = some c := by
      rw [hcs, List.cons_append, List.head?_cons]
    have hsign : afterSign (intToDecimal n ++ suffix) = natToDigits n.natAbs ++ suffix := by
      unfold afterSign
      rw [hspace, hhead]
      rw [if_neg ?side]
      case side =>
        simp only [Bool.or_eq_true, decide_eq_true_eq, Option.some.injEq]
        rintro (e | e)
        · exact digit_ne_of c '-' hcdig (by decide) e
        · exact digit_ne_of c '+' hcdig (by decide) e
    unfold toInt
    rw [hspace, hsign, hds, hhead]
    rw [if_neg (by simp only [Option.some.injEq]; exact digit_ne_of c '-' hcdig (by decide))]
    rw [hsigned]
    omega

theorem toInt_intToDecimal (n : Int) : toInt (intToDecimal n) = n := by
  have := toInt_decimal_append n [] (by intro c h; cases h)
  rwa [List.append_nil] at this

theorem toInt_eq_zero_of_malformed (s : Str) (hm : malformedNumber s = true) :
    toInt s = 0 := by
  have hX : (afterSign s).takeWhile Char.isDigit = [] := by
    cases hAS : afterSign s with
    | nil => rfl
    | cons c t =>
        unfold malformedNumber at hm
        rw [hAS, List.head?_cons] at hm
        simp only [Bool.not_eq_true'] at hm
        rw [List.takeWhile_cons, hm]
        exact if_neg Bool.noConfusion
  unfold toInt
  rw [hX]
  unfold toIntSigned
  simp

/- Lemmas about the splitter. -/

theorem splitKeep_sepFree (sep : Char) (A : Str) (h : sep ∉ A) :
    ∀ acc, splitKeep sep A acc = [acc.reverse ++ A] := by
  induction A with
  | nil => intro acc; simp [splitKeep]
  | cons x xs ih =>
      intro acc
      simp only [splitKeep]
      rw [if_neg (by intro e; exact h (e ▸ List.mem_cons_self x xs))]
      rw [ih (fun hm => h (List.mem_cons_of_mem x hm)) (x :: acc)]
      simp

theorem splitKeep_append (sep : Char) (A B : Str) (h : sep ∉ A) :
    ∀ acc, splitKeep sep (A ++ sep :: B) acc
      = (acc.reverse ++ A) :: splitKeep sep B [] := by
  induction A with
  | nil => intro acc; simp [splitKeep]
  | cons x xs ih =>
      intro acc
      rw [List.cons_append]
      simp only [splitKeep]
      rw [if_neg (by intro e; exact h (e ▸ List.mem_cons_self x xs))]
      rw [ih (fun hm => h (List.mem_cons_of_mem x hm)) (x :: acc)]
      simp

theorem split_sepFree (sep : Char) (A : Str) (h : sep ∉ A) (h0 : A ≠ []) :
    split sep A = [A] := by
  unfold split
  rw [splitKeep_sepFree sep A h []]
  simp [List.filter_cons, List.isEmpty_iff, h0]

theorem split_length_le_one (sep : Char) (A : Str) (h : sep ∉ A) :
    (split sep A).length ≤ 1 := by
  unfold split
  rw [splitKeep_sepFree sep A h []]
  exact le_trans (List.length_filter_le _ _) (by simp)

theorem split_pair (sep : Char) (A B : Str) (hA : sep ∉ A) (hB : sep ∉ B)
    (hA0 : A ≠ []) (hB0 : B ≠ []) : split sep (A ++ sep :: B) = [A, B] := by
  unfold split
  rw [splitKeep_append sep A B hA [], splitKeep_sepFree sep B hB []]
  simp [List.filter_cons, List.isEmpty_iff, hA0, hB0]

/- Character-set facts about the printf %d encodings. -/

theorem not_mem_intToDecimal_of (n : Int) (c : Char) (h1 : c ≠ '-')
    (h2 : c.isDigit = false) : c ∉ intToDecimal n := by
  intro hm
  rcases mem_intToDecimal n c hm with e | e
  · exact h1 e
  · rw [e] at h2; exact Bool.noConfusion h2

theorem intToDecimal_ne_nil (n : Int) : intToDecimal n ≠ [] := by
  unfold intToDecimal
  split
  · simp
  · exact natToDigits_ne_nil _

theorem char_not_in_Hz_tail (c : Char) (rr : Int) (h1 : c ≠ '-')
    (h2 : c.isDigit = false) (h3 : c ≠ 'H') (h4 : c ≠ 'z') :
    c ∉ intToDecimal rr ++ ['H', 'z'] := by
  intro hm
  simp only [List.mem_append, List.mem_cons, List.not_mem_nil, or_false] at hm
  rcases hm with hm | hm | hm
  · exact not_mem_intToDecimal_of rr c h1 h2 hm
  · exact h3 hm
  · exact h4 hm

theorem char_not_in_rate_tail (c : Char) (h rr : Int) (h1 : c ≠ '-')
    (h2 : c.isDigit = false) (h3 : c ≠ '@') (h4 : c ≠ 'H') (h5 : c ≠ 'z') :
    c ∉ intToDecimal h ++ '@' :: (intToDecimal rr ++ ['H', 'z']) := by
  intro hm
  simp only [List.mem_append, List.mem_cons, List.not_mem_nil, or_false] at hm
  rcases hm with hm | hm | hm | hm | hm
  · exact not_mem_intToDecimal_of h c h1 h2 hm
  · exact h3 hm
  · exact not_mem_intToDecimal_of rr c h1 h2 hm
  · exact h4 hm
  · exact h5 hm

/- Lemmas about the in-place reversal loop. -/

theorem swapElems_length (l : List α) (i j : Nat) (d : α) :
    (swapElems l i j d).length = l.length := by
  simp [swapElems]

theorem swapElems_getElem? (d : α) (l : List α) (i j : Nat)
    (hi : i < l.length) (hj : j < l.length) (k : Nat) :
    (swapElems l i j d)[k]? = if k = i then l[j]? else if k = j then l[i]? else l[k]? := by
  unfold swapElems
  rw [List.getElem?_set, List.getElem?_set, List.length_set]
  by_cases hkj : j = k
  · rw [if_pos hkj, if_pos hj, List.getD_eq_getElem l d hi, ← List.getElem?_eq_getElem hi]
    by_cases hki : k = i
    · rw [if_pos hki]
      have hij : j = i := hkj.trans hki
      rw [hij]
    · rw [if_neg hki, if_pos hkj.symm]
  · rw [if_neg hkj]
    by_cases hki : i = k
    · rw [if_pos hki, if_pos hi, List.getD_eq_getElem l d hj, ← List.getElem?_eq_getElem hj,
        if_pos hki.symm]
    · rw [if_neg hki, if_neg (fun e => hki e.symm), if_neg (fun e => hkj e.symm)]

theorem reverseLoop_getElem? (d : α) :
    ∀ (fuel : Nat) (l : List α) (i : Nat), l.length / 2 - i = fuel → ∀ (k : Nat),
      (reverseLoop d l i)[k]? =
        if i ≤ k ∧ k < l.length - i then l[l.length - 1 - k]? else l[k]? := by
  intro fuel
  induction fuel using Nat.strong_induction_on with
  | _ fuel ih =>
    intro l i hfuel k
    rw [reverseLoop]
    split
    · next hlt =>
        have hi : i < l.length := by omega
        have hj : l.length - 1 - i < l.length := by omega
        have hlen : (swapElems l i (l.length - 1 - i) d).length = l.length :=
          swapElems_length l i (l.length - 1 - i) d
        rw [ih ((swapElems l i (l.length - 1 - i) d).length / 2 - (i + 1))
          (by rw [hlen]; omega) _ (i + 1) rfl k, hlen]
        by_cases hA : i + 1 ≤ k ∧ k < l.length - (i + 1)
        · rw [if_pos hA, swapElems_getElem? d l i _ hi hj (l.length - 1 - k)]
          rw [if_neg (by omega), if_neg (by omega), if_pos (by omega)]
        · rw [if_neg hA, swapElems_getElem? d l i _ hi hj k]
          by_cases hk : k = i
          · rw [if_pos hk, if_pos (by omega), hk]
          · rw [if_neg hk]
            by_cases hk2 : k = l.length - 1 - i
            · rw [if_pos hk2, if_pos (by omega), show l.length - 1 - k = i by omega]
            · rw [if_neg hk2, if_neg (by omega)]
    · next hge =>
        by_cases hc : i ≤ k ∧ k < l.length - i
        · rw [if_pos hc, show l.length - 1 - k = k by omega]
        · rw [if_neg hc]

theorem reverseLoop_length (d : α) :
    ∀ (fuel : Nat) (l : List α) (i : Nat), l.length / 2 - i = fuel →
      (reverseLoop d l i).length = l.length := by
  intro fuel
  induction fuel using Nat.strong_induction_on with
  | _ fuel ih =>
    intro l i hfuel
    rw [reverseLoop]
    split
    · next hlt =>
        rw [ih ((swapElems l i (l.length - 1 - i) d).length / 2 - (i + 1))
          (by rw [swapElems_length]; omega) _ (i + 1) rfl, swapElems_length]
    · rfl

theorem reverseLoop_eq_reverse (d : α) (l : List α) : reverseLoop d l 0 = l.reverse := by
  apply List.ext_getElem?
  intro k
  rw [reverseLoop_getElem? d (l.length / 2 - 0) l 0 rfl k]
  by_cases hk : k < l.length
  · rw [if_pos (by omega), List.getElem?_reverse hk]
  · rw [if_neg (by omega), List.getElem?_eq_none (by omega),
      List.getElem?_eq_none (by rw [List.length_reverse]; omega)]

/- Nodup of the refresh-rate accumulation loop. -/

theorem foldl_rates_nodup (l : List Resolution) :
    ∀ acc : List Int, acc.Nodup →
      (l.foldl (fun rates mode =>
        if mode.refreshrate ∈ rates then rates else rates ++ [mode.refreshrate]) acc).Nodup := by
  induction l with
  | nil => intro acc h; exact h
  | cons x xs ih =>
      intro acc h
      rw [List.foldl_cons]
      apply ih
      by_cases hx : x.refreshrate ∈ acc
      · rwa [if_pos hx]
      · rw [if_neg hx]
        rw [List.nodup_append]
        exact ⟨h, List.nodup_singleton _, fun a ha hr => hx ((List.mem_singleton.mp hr) ▸ ha)⟩

theorem getLastD_reverse (l : List α) (d : α) : l.reverse.getLastD d = l.headD d := by
  cases l <;> simp

/-- Claim C3: an input without the character x splits into fewer than two
tokens, so Resolution::FromString returns the all-zero resolution; a field
whose token is a malformed number parses to 0 (in particular a WxH-shaped
input with two malformed fields also parses to the all-zero resolution). -/
theorem claim_C3 :
    (∀ s : Str, 'x' ∉ s → Resolution.fromString s = ⟨0, 0, 0⟩) ∧
    (∀ s : Str, malformedNumber s = true → toInt s = 0) ∧
    (∀ a b : Str, 'x' ∉ a → 'x' ∉ b → '@' ∉ b → a ≠ [] → b ≠ [] →
      malformedNumber a = true → malformedNumber b = true →
      Resolution.fromString (a ++ 'x' :: b) = ⟨0, 0, 0⟩) := by
  refine ⟨?_, ?_, ?_⟩
  · intro s hx
    have hlen := split_length_le_one 'x' s hx
    simp only [Resolution.fromString]
    rw [if_neg (by omega), if_neg (by omega)]
  · exact toInt_eq_zero_of_malformed
  · intro a b hxa hxb hab ha0 hb0 hma hmb
    have hsp := split_pair 'x' a b hxa hxb ha0 hb0
    have hrl := split_length_le_one '@' b hab
    simp only [Resolution.fromString, hsp]
    rw [if_neg (by simp), if_pos (by simp)]
    rw [show ([a, b] : List Str).getD 1 [] = b from rfl,
      show ([a, b] : List Str).getD 0 [] = a from rfl]
    rw [if_neg (by omega)]
    rw [toInt_eq_zero_of_malformed a hma, toInt_eq_zero_of_malformed b hmb]

theorem claim_C3_witness :
    ('x' ∉ ("abc").toList) ∧ Resolution.fromString (("abc").toList) = ⟨0, 0, 0⟩ :=
  ⟨by decide, claim_C3.1 (("abc").toList) (by decide)⟩

/-- Claim C4: for every resolution r, FromString inverts ToString: the
"WxH@RHz" encoding recovers all three fields, and the "WxH" encoding
recovers width and height with refresh rate 0. -/
theorem claim_C4 : ∀ r : Resolution,
    Resolution.fromString (r.toString true) = r ∧
    Resolution.fromString (r.toString false) = ⟨r.width, r.height, 0⟩ := by
  intro r
  obtain ⟨w, h, rr⟩ := r
  have hxW : 'x' ∉ intToDecimal w := not_mem_intToDecimal_of w 'x' (by decide) (by decide)
  have hxH : 'x' ∉ intToDecimal h := not_mem_intToDecimal_of h 'x' (by decide) (by decide)
  have haH : '@' ∉ intToDecimal h := not_mem_intToDecimal_of h '@' (by decide) (by decide)
  have hW0 := intToDecimal_ne_nil w
  have hH0 := intToDecimal_ne_nil h
  constructor
  · have hts : Resolution.toString ⟨w, h, rr⟩ true
        = intToDecimal w ++ 'x' :: (intToDecimal h ++ '@' :: (intToDecimal rr ++ ['H', 'z'])) := by
      simp [Resolution.toString]
    have hxB : 'x' ∉ intToDecimal h ++ '@' :: (intToDecimal rr ++ ['H', 'z']) :=
      char_not_in_rate_tail 'x' h rr (by decide) (by decide) (by decide) (by decide) (by decide)
    have hB0 : intToDecimal h ++ '@' :: (intToDecimal rr ++ ['H', 'z']) ≠ [] := by simp
    have hsp := split_pair 'x' _ _ hxW hxB hW0 hB0
    have haT : '@' ∉ intToDecimal rr ++ ['H', 'z'] :=
      char_not_in_Hz_tail '@' rr (by decide) (by decide) (by decide) (by decide)
    have hT0 : intToDecimal rr ++ ['H', 'z'] ≠ [] := by simp
    have hsp2 := split_pair '@' _ _ haH haT hH0 hT0
    rw [hts]
    simp only [Resolution.fromString, hsp]
    rw [if_neg (by simp), if_pos (by simp)]
    rw [show ([intToDecimal w, intToDecimal h ++ '@' :: (intToDecimal rr ++ ['H', 'z'])] :
        List Str).getD 1 [] = intToDecimal h ++ '@' :: (intToDecimal rr ++ ['H', 'z']) from rfl]
    rw [hsp2]
    rw [if_pos (by simp)]
    show (⟨toInt (intToDecimal w), toInt (intToDecimal h),
      toInt (intToDecimal rr ++ ['H', 'z'])⟩ : Resolution) = ⟨w, h, rr⟩
    rw [toInt_intToDecimal, toInt_intToDecimal,
      toInt_decimal_append rr ['H', 'z'] (by
        intro c hc
        simp only [List.head?_cons, Option.some.injEq] at hc
        subst hc
        decide)]
  · have hts : Resolution.toString ⟨w, h, rr⟩ false = intToDecimal w ++ 'x' :: intToDecimal h :=
      rfl
    have hsp := split_pair 'x' _ _ hxW hxH hW0 hH0
    have hsp2 := split_sepFree '@' (intToDecimal h) haH hH0
    rw [hts]
    simp only [Resolution.fromString, hsp]
    rw [if_neg (by simp), if_pos (by simp)]
    rw [show ([intToDecimal w, intToDecimal h] : List Str).getD 1 [] = intToDecimal h from rfl]
    rw [hsp2]
    rw [if_neg (by simp)]
    show (⟨toInt (intToDecimal w), toInt (intToDecimal h), 0⟩ : Resolution) = ⟨w, h, 0⟩
    rw [toInt_intToDecimal, toInt_intToDecimal]

/-- Claim C5: the resolution comparison operators compare pixel area only:
operator< and operator> hold exactly when the products width*height compare
strictly, the refresh-rate field never influences the result, and two
resolutions of equal area are incomparable by both operators. -/
theorem claim_C5 : ∀ a b : Resolution,
    (Resolution.lt a b = true ↔ a.width * a.height < b.width * b.height) ∧
    (Resolution.gt a b = true ↔ b.width * b.height < a.width * a.height) ∧
    (∀ ra rb : Int,
      Resolution.lt ⟨a.width, a.height, ra⟩ ⟨b.width, b.height, rb⟩ = Resolution.lt a b ∧
      Resolution.gt ⟨a.width, a.height, ra⟩ ⟨b.width, b.height, rb⟩ = Resolution.gt a b) ∧
    (a.width * a.height = b.width * b.height →
      Resolution.lt a b = false ∧ Resolution.gt a b = false) := by
  intro a b
  refine ⟨?_, ?_, ?_, ?_⟩
  · simp [Resolution.lt]
  · simp [Resolution.gt, gt_iff_lt]
  · intro ra rb; exact ⟨rfl, rfl⟩
  · intro hEq
    constructor <;> simp [Resolution.lt, Resolution.gt, hEq]

theorem claim_C5_witness :
    ((⟨1, 6, 60⟩ : Resolution).width * (⟨1, 6, 60⟩ : Resolution).height
      = (⟨2, 3, 75⟩ : Resolution).width * (⟨2, 3, 75⟩ : Resolution).height) ∧
    (Resolution.lt ⟨1, 6, 60⟩ ⟨2, 3, 75⟩ = false ∧
      Resolution.gt ⟨1, 6, 60⟩ ⟨2, 3, 75⟩ = false) :=
  ⟨by decide, (claim_C5 ⟨1, 6, 60⟩ ⟨2, 3, 75⟩).2.2.2 (by decide)⟩

/-- Claim C1: for every monitor index ≥ 0 and every requested rate,
GetFullscreenResolutions returns exactly the display modes reported for the
monitor that pass the rate filter (a mode is included iff rate = -1 or its
refresh rate equals rate), sorted in non-increasing pixel-area order. -/
theorem claim_C1 : ∀ (env : SDLEnv) (monitor rate : Int), 0 ≤ monitor →
    (getFullscreenResolutions env monitor rate).Perm
      (((displayModesOf env monitor).filter
          (fun mode => decide (rate = -1 ∨ mode.refresh_rate = rate))).map
        (fun mode => Resolution.mk mode.w mode.h mode.refresh_rate)) ∧
    (getFullscreenResolutions env monitor rate).Sorted Resolution.areaGe := by
  intro env monitor rate hm
  unfold getFullscreenResolutions
  rw [if_neg (by omega)]
  constructor
  · refine (List.perm_insertionSort Resolution.areaGe _).trans ?_
    have hfc : (displayModesOf env monitor).filter
          (fun mode => decide (rate = -1 ∨ (¬rate = -1 ∧ mode.refresh_rate = rate)))
        = (displayModesOf env monitor).filter
          (fun mode => decide (rate = -1 ∨ mode.refresh_rate = rate)) := by
      apply List.filter_congr
      intro mode _
      simp only [decide_eq_decide]
      tauto
    rw [hfc]
  · exact List.sorted_insertionSort Resolution.areaGe _

theorem claim_C1_witness :
    (0 ≤ (0 : Int)) ∧
    ((getFullscreenResolutions envW 0 60).Perm
        (((displayModesOf envW 0).filter
            (fun mode => decide ((60 : Int) = -1 ∨ mode.refresh_rate = 60))).map
          (fun mode => Resolution.mk mode.w mode.h mode.refresh_rate)) ∧
      (getFullscreenResolutions envW 0 60).Sorted Resolution.areaGe) :=
  ⟨by decide, claim_C1 envW 0 60 (by decide)⟩

/-- Claim C10: a negative monitor index yields the empty list both from
GetFullscreenResolutions (for any rate) and from GetFullscreenRefreshRates,
and the refresh-rate list never contains a duplicate. -/
theorem claim_C10 :
    (∀ (env : SDLEnv) (monitor rate : Int), monitor < 0 →
      getFullscreenResolutions env monitor rate = [] ∧
      getFullscreenRefreshRates env monitor = []) ∧
    (∀ (env : SDLEnv) (monitor : Int), (getFullscreenRefreshRates env monitor).Nodup) := by
  constructor
  · intro env monitor rate hm
    constructor
    · unfold getFullscreenResolutions; rw [if_pos hm]
    · unfold getFullscreenRefreshRates; rw [if_pos hm]
  · intro env monitor
    unfold getFullscreenRefreshRates
    split
    · exact List.nodup_nil
    · exact foldl_rates_nodup _ [] List.nodup_nil

theorem claim_C10_witness :
    ((-1 : Int) < 0) ∧
    (getFullscreenResolutions envW (-1) 60 = [] ∧ getFullscreenRefreshRates envW (-1) = []) :=
  ⟨by decide, claim_C10.1 envW (-1) 60 (by decide)⟩

/-- Claim C6: the swap loop of FillResolutions reverses the descending list
returned by GetFullscreenResolutions, so the resolution widget receives the
"WxH" encodings in ascending pixel-area order and its selected index is the
last entry, whose pixel area is maximal. -/
theorem claim_C6 : ∀ (env : SDLEnv) (monitor rate : Int) (s : SettingsState),
    reverseLoop (⟨0, 0, 0⟩ : Resolution) (getFullscreenResolutions env monitor rate) 0
      = (getFullscreenResolutions env monitor rate).reverse ∧
    (fillResolutions env monitor rate s).optResolution.strings
      = ((getFullscreenResolutions env monitor rate).reverse.map (fun r => r.toString false)) ∧
    ((getFullscreenResolutions env monitor rate).reverse).Sorted Resolution.areaLe ∧
    (fillResolutions env monitor rate s).optResolution.index
      = ((fillResolutions env monitor rate s).optResolution.strings.length : Int) - 1 ∧
    ((getFullscreenResolutions env monitor rate).reverse.getLastD ⟨0, 0, 0⟩
        = (getFullscreenResolutions env monitor rate).headD ⟨0, 0, 0⟩) ∧
    (∀ r ∈ getFullscreenResolutions env monitor rate,
      Resolution.areaGe ((getFullscreenResolutions env monitor rate).headD ⟨0, 0, 0⟩) r) := by
  intro env monitor rate s
  have hrev := reverseLoop_eq_reverse (⟨0, 0, 0⟩ : Resolution)
    (getFullscreenResolutions env monitor rate)
  have hsorted : (getFullscreenResolutions env monitor rate).Sorted Resolution.areaGe := by
    unfold getFullscreenResolutions
    split
    · exact List.sorted_nil
    · exact List.sorted_insertionSort Resolution.areaGe _
  refine ⟨hrev, ?_, ?_, ?_, getLastD_reverse _ _, ?_⟩
  · simp only [fillResolutions, hrev]
  · exact List.pairwise_reverse.mpr hsorted
  · simp only [fillResolutions]
  · intro r hr
    cases hL : getFullscreenResolutions env monitor rate with
    | nil => rw [hL] at hr; cases hr
    | cons x rest =>
        rw [hL] at hr hsorted
        rw [List.headD_cons]
        rcases List.mem_cons.mp hr with e | hmem
        · subst e; exact le_refl _
        · exact List.rel_of_sorted_cons hsorted r hmem

theorem claim_C6_witness :
    (reverseLoop (⟨0, 0, 0⟩ : Resolution) (getFullscreenResolutions envW 0 (-1)) 0
      = (getFullscreenResolutions envW 0 (-1)).reverse) ∧
    ((⟨1024, 768, 60⟩ : Resolution) ∈ getFullscreenResolutions envW 0 (-1) ∧
      Resolution.areaGe ((getFullscreenResolutions envW 0 (-1)).headD ⟨0, 0, 0⟩)
        ⟨1024, 768, 60⟩) :=
  ⟨(claim_C6 envW 0 (-1) baseState).1,
    by decide,
    (claim_C6 envW 0 (-1) baseState).2.2.2.2.2 ⟨1024, 768, 60⟩ (by decide)⟩

/- Projection helpers for the state-transformer functions. -/

theorem applyGraphicsOptions_needsApply (s : SettingsState) :
    (applyGraphicsOptions s).needsApply = s.needsApply := by
  unfold applyGraphicsOptions; split <;> rfl

theorem applyGraphicsOptions_btnApplyEnabled (s : SettingsState) :
    (applyGraphicsOptions s).btnApplyEnabled = s.btnApplyEnabled := by
  unfold applyGraphicsOptions; split <;> rfl

theorem applyGraphicsOptions_btnApplyFocusable (s : SettingsState) :
    (applyGraphicsOptions s).btnApplyFocusable = s.btnApplyFocusable := by
  unfold applyGraphicsOptions; split <;> rfl

theorem fillRates_needsApply (env : SDLEnv) (m : Int) (s : SettingsState) :
    (fillRates env m s).needsApply = s.needsApply := rfl

theorem fillRates_btnApplyEnabled (env : SDLEnv) (m : Int) (s : SettingsState) :
    (fillRates env m s).btnApplyEnabled = s.btnApplyEnabled := rfl

theorem fillRates_btnApplyFocusable (env : SDLEnv) (m : Int) (s : SettingsState) :
    (fillRates env m s).btnApplyFocusable = s.btnApplyFocusable := rfl

theorem fillResolutions_needsApply (env : SDLEnv) (m r : Int) (s : SettingsState) :
    (fillResolutions env m r s).needsApply = s.needsApply := rfl

theorem fillResolutions_btnApplyEnabled (env : SDLEnv) (m r : Int) (s : SettingsState) :
    (fillResolutions env m r s).btnApplyEnabled = s.btnApplyEnabled := rfl

theorem fillResolutions_btnApplyFocusable (env : SDLEnv) (m r : Int) (s : SettingsState) :
    (fillResolutions env m r s).btnApplyFocusable = s.btnApplyFocusable := rfl

theorem refreshVideoOptions_optFullscreen_index (env : SDLEnv) (s : SettingsState) :
    (refreshVideoOptions env s).optFullscreen.index = 0 := by
  unfold refreshVideoOptions
  simp only [apply_ite SettingsState.optFullscreen, ite_self]

theorem handleOptionChanged_needsApply (env : SDLEnv) (ev : OptionEvent) (s : SettingsState)
    (h : s.refreshing = false) :
    (handleOptionChanged env ev s).needsApply = (s.needsApply || hasTag ev videoTag) := by
  unfold handleOptionChanged
  rw [if_neg (by simp [h])]
  simp only [apply_ite SettingsState.needsApply, applyGraphicsOptions_needsApply,
    fillResolutions_needsApply, fillRates_needsApply, ite_self]

theorem handleOptionChanged_btnApplyEnabled (env : SDLEnv) (ev : OptionEvent) (s : SettingsState)
    (h : s.refreshing = false) :
    (handleOptionChanged env ev s).btnApplyEnabled = (s.needsApply || hasTag ev videoTag) := by
  unfold handleOptionChanged
  rw [if_neg (by simp [h])]
  simp only [apply_ite SettingsState.btnApplyEnabled, applyGraphicsOptions_btnApplyEnabled,
    apply_ite SettingsState.needsApply,
    fillResolutions_btnApplyEnabled, fillRates_btnApplyEnabled,
    fillResolutions_needsApply, fillRates_needsApply, ite_self]

theorem handleOptionChanged_btnApplyFocusable (env : SDLEnv) (ev : OptionEvent)
    (s : SettingsState) (h : s.refreshing = false) :
    (handleOptionChanged env ev s).btnApplyFocusable = (s.needsApply || hasTag ev videoTag) := by
  unfold handleOptionChanged
  rw [if_neg (by simp [h])]
  simp only [apply_ite SettingsState.btnApplyFocusable, applyGraphicsOptions_btnApplyFocusable,
    apply_ite SettingsState.needsApply,
    fillResolutions_btnApplyFocusable, fillRates_btnApplyFocusable,
    fillResolutions_needsApply, fillRates_needsApply, ite_self]

theorem refreshVideoOptions_needsApply (env : SDLEnv) (s : SettingsState) :
    (refreshVideoOptions env s).needsApply = s.needsApply := by
  unfold refreshVideoOptions
  simp only [apply_ite SettingsState.needsApply, fillResolutions_needsApply,
    fillRates_needsApply, ite_self]

theorem refreshVideoOptions_btnApplyEnabled (env : SDLEnv) (s : SettingsState) :
    (refreshVideoOptions env s).btnApplyEnabled = s.needsApply := by
  unfold refreshVideoOptions
  simp only [apply_ite SettingsState.btnApplyEnabled, apply_ite SettingsState.needsApply,
    fillResolutions_btnApplyEnabled, fillRates_btnApplyEnabled,
    fillResolutions_needsApply, fillRates_needsApply, ite_self]

/-- Claim C7: while refreshing_ is true, HandleOptionChanged and
ApplyGraphicsOptions return immediately, so a re-entrant option-changed
callback raised during a refresh changes no widget, renderer or flag state
(the whole settings state, needs_apply_ included, is unchanged). -/
theorem claim_C7 : ∀ (env : SDLEnv) (ev : OptionEvent) (s : SettingsState),
    s.refreshing = true →
    handleOptionChanged env ev s = s ∧ applyGraphicsOptions s = s := by
  intro env ev s h
  constructor
  · unfold handleOptionChanged; rw [if_pos h]
  · unfold applyGraphicsOptions; rw [if_pos h]

theorem claim_C7_witness :
    ({ baseState with refreshing := true } : SettingsState).refreshing = true ∧
    (handleOptionChanged envW videoEvent { baseState with refreshing := true }
        = { baseState with refreshing := true } ∧
      applyGraphicsOptions { baseState with refreshing := true }
        = { baseState with refreshing := true }) :=
  ⟨rfl, claim_C7 envW videoEvent { baseState with refreshing := true } rfl⟩

/-- Claim C2 (counterexample): with the Graphics subsystem fullscreen, the
claim expects RefreshVideoOptions to set the display-mode widget index to
2, but the code sets 0. -/
theorem claim_C2_counterexample :
    ({ baseState with graphics := { baseGraphics with fullscreen := true } } :
        SettingsState).graphics.fullscreen = true ∧
    (refreshVideoOptions envW
        { baseState with graphics := { baseGraphics with fullscreen := true } }
      ).optFullscreen.index = 0 :=
  ⟨rfl, refreshVideoOptions_optFullscreen_index envW _⟩

/-- Claim C2 (amended): RefreshVideoOptions sets the display-mode option
widget's index to 0 (Window) regardless of the fullscreen and borderless
state of the Graphics subsystem; the RenderWindowMode value the source
computes from that state is never used. -/
theorem claim_C2 : ∀ (env : SDLEnv) (s : SettingsState),
    (refreshVideoOptions env s).optFullscreen.index = 0 :=
  refreshVideoOptions_optFullscreen_index

/-- Claim C8 (counterexample): HandleApply clears needs_apply_ but does not
update the Apply button, so right after HandleApply the button's enabled
state (still true) differs from needs_apply_ (false), contradicting the
claim that they agree after each of the three routines. -/
theorem claim_C8_counterexample :
    ({ baseState with needsApply := true, btnApplyEnabled := true } :
        SettingsState).needsApply = true ∧
    ({ baseState with needsApply := true, btnApplyEnabled := true } :
        SettingsState).btnApplyEnabled = true ∧
    (handleApply { baseState with needsApply := true, btnApplyEnabled := true }).needsApply
        = false ∧
    (handleApply { baseState with needsApply := true, btnApplyEnabled := true }).btnApplyEnabled
        = true :=
  ⟨rfl, rfl, rfl, rfl⟩

/-- Claim C8 (amended): needs_apply_ becomes true exactly when
HandleOptionChanged processes (outside a refresh) a change of an option
tagged video (otherwise it keeps its value), RefreshVideoOptions and
RefreshGraphicsOptions never change it, HandleApply alone clears it; after
HandleOptionChanged and RefreshVideoOptions the Apply button's enabled
state equals needs_apply_, while HandleApply leaves the button's enabled
state untouched. -/
theorem claim_C8 : ∀ (env : SDLEnv) (ev : OptionEvent) (s : SettingsState),
    (s.refreshing = false →
      (handleOptionChanged env ev s).needsApply = (s.needsApply || hasTag ev videoTag) ∧
      (handleOptionChanged env ev s).btnApplyEnabled = (handleOptionChanged env ev s).needsApply ∧
      (handleOptionChanged env ev s).btnApplyFocusable
        = (handleOptionChanged env ev s).needsApply) ∧
    ((refreshVideoOptions env s).needsApply = s.needsApply ∧
      (refreshVideoOptions env s).btnApplyEnabled = s.needsApply) ∧
    (refreshGraphicsOptions s).needsApply = s.needsApply ∧
    ((handleApply s).needsApply = false ∧
      (handleApply s).btnApplyEnabled = s.btnApplyEnabled) := by
  intro env ev s
  refine ⟨?_, ⟨refreshVideoOptions_needsApply env s, refreshVideoOptions_btnApplyEnabled env s⟩,
    rfl, rfl, rfl⟩
  intro h
  refine ⟨handleOptionChanged_needsApply env ev s h, ?_, ?_⟩
  · rw [handleOptionChanged_btnApplyEnabled env ev s h, handleOptionChanged_needsApply env ev s h]
  · rw [handleOptionChanged_btnApplyFocusable env ev s h, handleOptionChanged_needsApply env ev s h]

theorem claim_C8_witness :
    baseState.refreshing = false ∧
    ((handleOptionChanged envW videoEvent baseState).needsApply
        = (baseState.needsApply || hasTag videoEvent videoTag) ∧
      (handleOptionChanged envW videoEvent baseState).btnApplyEnabled
        = (handleOptionChanged envW videoEvent baseState).needsApply ∧
      (handleOptionChanged envW videoEvent baseState).btnApplyFocusable
        = (handleOptionChanged envW videoEvent baseState).needsApply) :=
  ⟨rfl, (claim_C8 envW videoEvent baseState).1 rfl⟩

/-- Claim C9: ApplyVideoOptions calls SetMode with the fullscreen flag true
iff the display-mode index is 2 and the borderless flag true iff it is 1;
the resolution passed is 0x0 for index 1, the saved windowed resolution for
index 0 (followed by restoring the saved window position), and the parsed
resolution and rate widgets for index 2. -/
theorem claim_C9 : ∀ s : SettingsState,
    (setModeArgs s).fullscreen = decide (s.optFullscreen.index = 2) ∧
    (setModeArgs s).borderless = decide (s.optFullscreen.index = 1) ∧
    (s.optFullscreen.index = 1 → (setModeArgs s).width = 0 ∧ (setModeArgs s).height = 0) ∧
    (s.optFullscreen.index = 0 →
      (setModeArgs s).width = s.windowedResolution.1 ∧
      (setModeArgs s).height = s.windowedResolution.2 ∧
      (applyVideoOptions s).graphics.posX = s.windowedPosition.1 ∧
      (applyVideoOptions s).graphics.posY = s.windowedPosition.2) ∧
    (s.optFullscreen.index = 2 →
      (setModeArgs s).width = (Resolution.fromString s.optResolution.value).width ∧
      (setModeArgs s).height = (Resolution.fromString s.optResolution.value).height ∧
      (setModeArgs s).refreshRate = toInt s.optRate.value) ∧
    (applyVideoOptions s).graphics.fullscreen = decide (s.optFullscreen.index = 2) ∧
    (applyVideoOptions s).graphics.borderless = decide (s.optFullscreen.index = 1) := by
  intro s
  refine ⟨rfl, rfl, ?_, ?_, ?_, ?_, ?_⟩
  · intro h1
    constructor <;> simp [setModeArgs, videoModeResolution, h1]
  · intro h0
    refine ⟨?_, ?_, ?_, ?_⟩ <;>
      simp [setModeArgs, videoModeResolution, applyVideoOptions, applySetMode, h0]
  · intro h2
    refine ⟨?_, ?_, ?_⟩ <;> simp [setModeArgs, videoModeResolution, h2]
  · unfold applyVideoOptions applySetMode
    dsimp only
    split <;> rfl
  · unfold applyVideoOptions applySetMode
    dsimp only
    split <;> rfl

theorem claim_C9_witness :
    (({ baseState with optFullscreen := ⟨[], 1⟩ } : SettingsState).optFullscreen.index = 1 ∧
      (setModeArgs { baseState with optFullscreen := ⟨[], 1⟩ }).width = 0 ∧
      (setModeArgs { baseState with optFullscreen := ⟨[], 1⟩ }).height = 0) ∧
    (baseState.optFullscreen.index = 0 ∧
      (setModeArgs baseState).width = baseState.windowedResolution.1 ∧
      (setModeArgs baseState).height = baseState.windowedResolution.2 ∧
      (applyVideoOptions baseState).graphics.posX = baseState.windowedPosition.1 ∧
      (applyVideoOptions baseState).graphics.posY = baseState.windowedPosition.2) ∧
    (({ baseState with optFullscreen := ⟨[], 2⟩ } : SettingsState).optFullscreen.index = 2 ∧
      (setModeArgs { baseState with optFullscreen := ⟨[], 2⟩ }).refreshRate
        = toInt ({ baseState with optFullscreen := ⟨[], 2⟩ } : SettingsState).optRate.value) :=
  ⟨⟨rfl, (claim_C9 { baseState with optFullscreen := ⟨[], 1⟩ }).2.2.1 rfl⟩,
    ⟨rfl, (claim_C9 baseState).2.2.2.1 rfl⟩,
    ⟨rfl, ((claim_C9 { baseState with optFullscreen := ⟨[], 2⟩ }).2.2.2.2.1 rfl).2.2⟩⟩

end Urho3D
